import Mathlib

/-!
Verification of the Spill social-polling backend: a shallow embedding of the
relationship store, the social-graph queries, the visibility decision
functions, the relationship mutation service, the response (vote / slider)
flip-flop counting, and the admin visibility simulator, translated from the
TypeScript sources (`src/domain/visibility.ts`, `src/db/repositories/*.ts`,
`src/features/admin/admin.service.ts`, `src/services/user.service.ts`,
`src/lib/validations/*.ts`, `src/db/errors.ts`).

User ids, poll ids and tokens are opaque strings; `Option String` models a
TypeScript `string | null | undefined`, with `none` for null/undefined.
JavaScript truthiness on strings (empty string is falsy) is modelled by
`jsFalsy`.  Fallible repository operations return `Except DbError`, with the
state passed explicitly; an operation that throws leaves the store unchanged.
-/

namespace Spill

/-- Poll visibility modes, from the Prisma `PollVisibility` enum. -/
inductive PollVisibility
  | PUBLIC
  | FRIENDS_ONLY
  | PRIVATE_LINK
deriving DecidableEq, Repr

/-- Follow-request lifecycle states, from the Prisma `FollowRequestStatus` enum. -/
inductive FollowRequestStatus
  | PENDING
  | ACCEPTED
  | REJECTED
deriving DecidableEq, Repr

/-- User record (the fields the visibility logic reads). -/
structure User where
  id : String
  isPrivate : Bool
deriving DecidableEq, Repr

/-- Poll record (the fields the visibility and response logic reads).
`expiresAt` is an abstract tick; `none` means no expiry. -/
structure Poll where
  id : String
  ownerId : String
  visibility : PollVisibility
  privateLinkToken : Option String
  isContinuous : Bool
  minValue : Option Int
  maxValue : Option Int
  expiresAt : Option Nat
deriving DecidableEq, Repr

/-- A row of the `FollowRequest` table. -/
structure FollowRequest where
  followerId : String
  followeeId : String
  status : FollowRequestStatus
deriving DecidableEq, Repr

/-- A row of the `Vote` table (discrete-poll response). -/
structure Vote where
  id : String
  pollId : String
  voterId : String
  optionId : String
  isHidden : Bool
  isSharedPublicly : Bool
  flipFlopCount : Nat
deriving DecidableEq, Repr

/-- A row of the `SliderResponse` table (continuous-poll response). -/
structure SliderResponse where
  id : String
  pollId : String
  userId : String
  value : Int
  isHidden : Bool
  isSharedPublicly : Bool
  flipFlopCount : Nat
deriving DecidableEq, Repr

/-- The persisted store: users, polls, the four directed-edge tables
(follow / follow-request / block / mute) and the two response tables.
Directed edges are (source, target) pairs with uniqueness maintained by the
mutation operations. -/
structure DB where
  users : List User
  polls : List Poll
  follows : List (String × String)
  followRequests : List FollowRequest
  blocks : List (String × String)
  mutes : List (String × String)
  votes : List Vote
  sliderResponses : List SliderResponse
deriving DecidableEq, Repr

/-- The empty store. -/
def DB.empty : DB := ⟨[], [], [], [], [], [], [], []⟩

/-- JavaScript string truthiness on a `string | null | undefined` value:
null, undefined and the empty string are falsy. -/
def jsFalsy : Option String → Bool
  | none => true
  | some s => s = ""

/-- Errors of the database layer, from `src/db/errors.ts`. -/
inductive DbError
  | NotFoundError (resource : String)
  | ConflictError (msg : String)
  | ValidationError (msg : String)
  | DatabaseError (code : String)
deriving DecidableEq, Repr

/-- Prisma known-request error codes relevant to `mapPrismaError`. -/
inductive PrismaErrorCode
  | P2002 (field : String)
  | P2025
  | P2003
  | P2014
  | other (code : String)
deriving DecidableEq, Repr

/-- Embedding of `mapPrismaError` from `src/db/errors.ts`: maps store faults to domain
errors (unique-constraint violation to Conflict, record-not-found to
NotFound, foreign-key and relation violations to Validation). -/
def mapPrismaError : PrismaErrorCode → DbError
  | .P2002 f => .ConflictError ("A record with this " ++ f ++ " already exists")
  | .P2025 => .NotFoundError "Record"
  | .P2003 => .ValidationError "Referenced record does not exist"
  | .P2014 => .ValidationError "Required relation is missing"
  | .other c => .DatabaseError c

/-- Lookup a user by id (`prisma.user.findUnique`). -/
def findUser (db : DB) (id : String) : Option User :=
  db.users.find? (fun u => u.id == id)

/-- Lookup a poll by id (`prisma.poll.findUnique`). -/
def findPoll (db : DB) (id : String) : Option Poll :=
  db.polls.find? (fun p => p.id == id)

/-- Embedding of `SocialRepository.isFollowing`: existence check on the Follow table. -/
def isFollowing (db : DB) (followerId followeeId : String) : Bool :=
  db.follows.contains (followerId, followeeId)

/-- Embedding of `SocialRepository.isBlocked`: existence check on the Block table. -/
def isBlocked (db : DB) (blockerId blockedId : String) : Bool :=
  db.blocks.contains (blockerId, blockedId)

/-- Embedding of `SocialRepository.isMuted`: existence check on the Mute table. -/
def isMuted (db : DB) (muterId mutedId : String) : Bool :=
  db.mutes.contains (muterId, mutedId)

/-- Result shape of `SocialRepository.getMutualFollows`. -/
structure MutualFollows where
  user1FollowsUser2 : Bool
  user2FollowsUser1 : Bool
  areMutuals : Bool
deriving DecidableEq, Repr

/-- Embedding of `SocialRepository.getMutualFollows`: two independent edge lookups,
`areMutuals` recomputed as their conjunction. -/
def getMutualFollows (db : DB) (userId1 userId2 : String) : MutualFollows :=
  let follow1 := isFollowing db userId1 userId2
  let follow2 := isFollowing db userId2 userId1
  ⟨follow1, follow2, follow1 && follow2⟩

/-- Embedding of `UserValidations.validateUserIds`: both ids required (nonempty, JS
truthiness) and no self-relation. -/
def validateUserIds (userId1 userId2 : String) : Except DbError Unit :=
  if userId1 = "" || userId2 = "" then
    .error (.ValidationError "Both user IDs are required")
  else if userId1 = userId2 then
    .error (.ValidationError "Cannot target yourself")
  else
    .ok ()

/-- Context consumed by the pure poll-visibility rule,
`VisibilityContext` in `src/domain/visibility.ts`. -/
structure VisibilityContext where
  viewerId : Option String
  ownerId : String
  pollVisibility : PollVisibility
  privateLinkToken : Option String
  providedToken : Option String
  areMutuals : Bool
deriving DecidableEq, Repr

/-- Embedding of `canViewPoll` from `src/domain/visibility.ts`: PRIVATE_LINK requires a
truthy provided token strictly equal to the poll token; PUBLIC is always
visible; FRIENDS_ONLY requires a truthy viewer who is the owner or a mutual.
The trailing `false` mirrors the function's final `return false`. -/
def canViewPoll (context : VisibilityContext) : Bool :=
  if context.pollVisibility = .PRIVATE_LINK then
    if jsFalsy context.providedToken || context.privateLinkToken ≠ context.providedToken then
      false
    else
      true
  else if context.pollVisibility = .PUBLIC then
    true
  else if context.pollVisibility = .FRIENDS_ONLY then
    if jsFalsy context.viewerId then
      false
    else if some context.ownerId = context.viewerId then
      true
    else
      context.areMutuals
  else
    false

/-- Embedding of `canViewProfile` from `src/domain/visibility.ts`: the owner always may;
a private profile needs an authenticated mutual; a public profile is visible
to everyone.  The function takes no block information at all. -/
def canViewProfile (viewerId : Option String) (profileId : String)
    (isPrivate : Bool) (areMutuals : Bool) : Bool :=
  if viewerId = some profileId then
    true
  else if isPrivate then
    if jsFalsy viewerId then false else areMutuals
  else
    true

/-- Embedding of `canViewResponse` from `src/domain/visibility.ts`: poll visibility first,
then the author always may, then the hidden flag. -/
def canViewResponse (canViewPoll : Bool) (responseOwnerId : String)
    (viewerId : Option String) (isHidden : Bool) : Bool :=
  if !canViewPoll then
    false
  else if viewerId = some responseOwnerId then
    true
  else if isHidden then
    false
  else
    true

/-- Embedding of `PollRepository.canViewPoll` from `src/db/repositories/poll.repository.ts`:
resolves the poll (NotFound if absent) and re-encodes the poll rules inline,
computing mutuals from the store for the FRIENDS_ONLY branch. -/
def canViewPollR (db : DB) (pollId : String) (viewerId : Option String)
    (privateLinkToken : Option String) : Except DbError Bool :=
  match findPoll db pollId with
  | none => .error (.NotFoundError "Poll")
  | some poll =>
    if poll.visibility = .PRIVATE_LINK then
      if jsFalsy privateLinkToken || poll.privateLinkToken ≠ privateLinkToken then
        .ok false
      else
        .ok true
    else if poll.visibility = .PUBLIC then
      .ok true
    else if poll.visibility = .FRIENDS_ONLY then
      if jsFalsy viewerId then
        .ok false
      else if some poll.ownerId = viewerId then
        .ok true
      else
        match viewerId with
        | some v => .ok (getMutualFollows db v poll.ownerId).areMutuals
        | none => .ok false
    else
      .ok false

/-- The `VisibilityContext` a caller of the pure rule would assemble for a
poll and viewer over the current store (mutuals recomputed from the Follow
table; an anonymous viewer has no mutuals). -/
def mkPollContext (db : DB) (poll : Poll) (viewerId : Option String)
    (providedToken : Option String) : VisibilityContext :=
  let areMutuals :=
    match viewerId with
    | some v => (getMutualFollows db v poll.ownerId).areMutuals
    | none => false
  ⟨viewerId, poll.ownerId, poll.visibility, poll.privateLinkToken, providedToken, areMutuals⟩

/-- Embedding of `prisma.follow.delete` at the store: removing an absent record is the
P2025 record-not-found fault. -/
def prismaFollowDelete (db : DB) (followerId followeeId : String) :
    Except PrismaErrorCode DB :=
  if db.follows.contains (followerId, followeeId) then
    .ok { db with follows := db.follows.erase (followerId, followeeId) }
  else
    .error .P2025

/-- Embedding of `prisma.block.delete` at the store, with the same P2025 behaviour. -/
def prismaBlockDelete (db : DB) (blockerId blockedId : String) :
    Except PrismaErrorCode DB :=
  if db.blocks.contains (blockerId, blockedId) then
    .ok { db with blocks := db.blocks.erase (blockerId, blockedId) }
  else
    .error .P2025

/-- Embedding of `prisma.mute.delete` at the store, with the same P2025 behaviour. -/
def prismaMuteDelete (db : DB) (muterId mutedId : String) :
    Except PrismaErrorCode DB :=
  if db.mutes.contains (muterId, mutedId) then
    .ok { db with mutes := db.mutes.erase (muterId, mutedId) }
  else
    .error .P2025

/-- Embedding of `SocialRepository.follow`: validate ids, reject an existing edge with
Conflict, reject when the followee has blocked the follower with Conflict,
otherwise create the Follow edge.  The operation reads neither the followee's
`isPrivate` flag nor the FollowRequest table. -/
def follow (db : DB) (followerId followeeId : String) : Except DbError DB :=
  match validateUserIds followerId followeeId with
  | .error e => .error e
  | .ok _ =>
    if isFollowing db followerId followeeId then
      .error (.ConflictError "Already following this user")
    else if isBlocked db followeeId followerId then
      .error (.ConflictError "Cannot follow a user who has blocked you")
    else
      .ok { db with follows := db.follows ++ [(followerId, followeeId)] }

/-- Embedding of `SocialRepository.unfollow`: a bare store delete behind
`withErrorMapping`, so a missing edge surfaces as the mapped P2025 fault. -/
def unfollow (db : DB) (followerId followeeId : String) : Except DbError DB :=
  match prismaFollowDelete db followerId followeeId with
  | .ok db' => .ok db'
  | .error e => .error (mapPrismaError e)

/-- One swallowed-error unfollow side call of `SocialRepository.block`
(`this.unfollow(x, y).catch(() => \x7b\x7d)`): a failed delete leaves the
store unchanged. -/
def bestEffortUnfollow (db : DB) (followerId followeeId : String) : DB :=
  match unfollow db followerId followeeId with
  | .ok d => d
  | .error _ => db

/-- Embedding of `SocialRepository.block`: validate ids, best-effort remove the Follow
edges in both directions (`Promise.allSettled` with swallowed errors,
sequentialised here), then upsert the Block edge (an existing edge only has
its timestamp refreshed, which the model drops). -/
def block (db : DB) (blockerId blockedId : String) : Except DbError DB :=
  match validateUserIds blockerId blockedId with
  | .error e => .error e
  | .ok _ =>
    let db2 := bestEffortUnfollow (bestEffortUnfollow db blockerId blockedId) blockedId blockerId
    if db2.blocks.contains (blockerId, blockedId) then
      .ok db2
    else
      .ok { db2 with blocks := db2.blocks ++ [(blockerId, blockedId)] }

/-- Embedding of `SocialRepository.unblock`: a bare store delete behind
`withErrorMapping`. -/
def unblock (db : DB) (blockerId blockedId : String) : Except DbError DB :=
  match prismaBlockDelete db blockerId blockedId with
  | .ok db' => .ok db'
  | .error e => .error (mapPrismaError e)

/-- Embedding of `SocialRepository.mute`: validate ids, then upsert the Mute edge. -/
def mute (db : DB) (muterId mutedId : String) : Except DbError DB :=
  match validateUserIds muterId mutedId with
  | .error e => .error e
  | .ok _ =>
    if db.mutes.contains (muterId, mutedId) then
      .ok db
    else
      .ok { db with mutes := db.mutes ++ [(muterId, mutedId)] }

/-- Embedding of `SocialRepository.unmute`: a bare store delete behind
`withErrorMapping`. -/
def unmute (db : DB) (muterId mutedId : String) : Except DbError DB :=
  match prismaMuteDelete db muterId mutedId with
  | .ok db' => .ok db'
  | .error e => .error (mapPrismaError e)

/-- The relationship mutation operations reachable through the service. -/
inductive Op
  | follow (a b : String)
  | unfollow (a b : String)
  | block (a b : String)
  | unblock (a b : String)
  | mute (a b : String)
  | unmute (a b : String)
deriving DecidableEq, Repr

/-- Run one mutation; a rejected mutation leaves the store unchanged. -/
def applyOp (db : DB) : Op → DB
  | .follow a b => match follow db a b with | .ok d => d | .error _ => db
  | .unfollow a b => match unfollow db a b with | .ok d => d | .error _ => db
  | .block a b => match block db a b with | .ok d => d | .error _ => db
  | .unblock a b => match unblock db a b with | .ok d => d | .error _ => db
  | .mute a b => match mute db a b with | .ok d => d | .error _ => db
  | .unmute a b => match unmute db a b with | .ok d => d | .error _ => db

/-- Run a sequence of mutations from a starting store. -/
def runOps (db : DB) (ops : List Op) : DB :=
  ops.foldl applyOp db

/-- Embedding of `PollValidations.validateSliderValue`: the value must lie within the
poll's configured range (a null bound is unconstrained). -/
def validateSliderValue (value : Int) (minValue maxValue : Option Int) :
    Except DbError Unit :=
  if (match minValue with | some m => decide (value < m) | none => false) then
    .error (.ValidationError "Value below minimum")
  else if (match maxValue with | some m => decide (value > m) | none => false) then
    .error (.ValidationError "Value above maximum")
  else
    .ok ()

/-- Embedding of `PollRepository.getUserVoteForPoll`: all of a user's votes on a poll. -/
def getUserVoteForPoll (db : DB) (pollId userId : String) : List Vote :=
  db.votes.filter (fun v => v.pollId == pollId && v.voterId == userId)

/-- Embedding of `PollRepository.getUserSliderResponse`: the unique (pollId, userId)
slider response, if any. -/
def getUserSliderResponse (db : DB) (pollId userId : String) :
    Option SliderResponse :=
  db.sliderResponses.find? (fun r => r.pollId == pollId && r.userId == userId)

/-- Lookup of an existing vote by its (pollId, voterId, optionId) unique key. -/
def findVoteByKey (db : DB) (pollId voterId optionId : String) : Option Vote :=
  db.votes.find? (fun v =>
    v.pollId == pollId && v.voterId == voterId && v.optionId == optionId)

/-- Embedding of `PollRepository.vote`: reject on a continuous or expired poll; an
existing vote for the same option is returned unchanged (no write); a new
vote gets flipFlopCount 0 when the user has no votes on the poll, else the
maximum existing flipFlopCount plus one.  `now` stands for `new Date()`. -/
def vote (db : DB) (now : Nat) (pollId voterId optionId : String) :
    Except DbError (Vote × DB) :=
  match findPoll db pollId with
  | none => .error (.NotFoundError "Poll")
  | some poll =>
  if poll.isContinuous then
    .error (.ValidationError "Cannot vote on continuous polls")
  else if (match poll.expiresAt with | some e => decide (e < now) | none => false) then
    .error (.ValidationError "Poll has expired")
  else
    match findVoteByKey db pollId voterId optionId with
    | some existingVote => .ok (existingVote, db)
    | none =>
      let existingVotes := getUserVoteForPoll db pollId voterId
      let flipFlopCount :=
        if existingVotes.length > 0 then
          (existingVotes.map (fun v => v.flipFlopCount)).foldl Nat.max 0 + 1
        else
          0
      let v : Vote :=
        ⟨pollId ++ ":" ++ voterId ++ ":" ++ optionId,
         pollId, voterId, optionId, false, false, flipFlopCount⟩
      .ok (v, { db with votes := db.votes ++ [v] })

/-- Embedding of `prisma.sliderResponse.upsert` on the (pollId, userId) unique key:
update value and flipFlopCount in place, or create a fresh row. -/
def upsertSliderResponse (db : DB) (pollId userId : String) (value : Int)
    (flipFlopCount : Nat) : SliderResponse × DB :=
  match getUserSliderResponse db pollId userId with
  | some r =>
    let r' := { r with value := value, flipFlopCount := flipFlopCount }
    (r', { db with
            sliderResponses := db.sliderResponses.map (fun s =>
              if s.pollId == pollId && s.userId == userId then r' else s) })
  | none =>
    let r : SliderResponse :=
      ⟨pollId ++ ":" ++ userId, pollId, userId, value, false, false, flipFlopCount⟩
    (r, { db with sliderResponses := db.sliderResponses ++ [r] })

/-- Embedding of `PollRepository.submitSliderResponse`: reject on a discrete or expired
poll and on an out-of-range value; a first submission gets flipFlopCount 0,
any later submission (same value or not) gets the stored count plus one. -/
def submitSliderResponse (db : DB) (now : Nat) (pollId userId : String)
    (value : Int) : Except DbError (SliderResponse × DB) :=
  match findPoll db pollId with
  | none => .error (.NotFoundError "Poll")
  | some poll =>
  if !poll.isContinuous then
    .error (.ValidationError "Cannot submit slider response on discrete polls")
  else if (match poll.expiresAt with | some e => decide (e < now) | none => false) then
    .error (.ValidationError "Poll has expired")
  else
    match validateSliderValue value poll.minValue poll.maxValue with
    | .error e => .error e
    | .ok _ =>
      let flipFlopCount :=
        match getUserSliderResponse db pollId userId with
        | some existingResponse => existingResponse.flipFlopCount + 1
        | none => 0
      .ok (upsertSliderResponse db pollId userId value flipFlopCount)

/-- Submit a sequence of slider values for one (poll, user) pair, collecting
the flipFlopCount of each successful write (`none` for a rejected one). -/
def submitMany (now : Nat) (pollId userId : String) :
    DB → List Int → List (Option Nat) × DB
  | db, [] => ([], db)
  | db, v :: vs =>
    match submitSliderResponse db now pollId userId v with
    | .ok (r, db') =>
      let rest := submitMany now pollId userId db' vs
      (some r.flipFlopCount :: rest.1, rest.2)
    | .error _ =>
      let rest := submitMany now pollId userId db vs
      (none :: rest.1, rest.2)

/-- The (allowed, reason) pair returned by the admin visibility simulator. -/
structure Decision where
  allowed : Bool
  reason : String
deriving DecidableEq, Repr

/-- Target kinds accepted by `AdminService.simulateVisibility`. -/
inductive TargetType
  | poll
  | response
  | profile
deriving DecidableEq, Repr

/-- The poll branch of `AdminService.simulateVisibility`: calls
`PollRepository.canViewPoll` with no token, then reconstructs a reason from
the poll's visibility mode (re-querying mutuals for FRIENDS_ONLY). -/
def simulatePoll (db : DB) (viewerUserId targetId : String) :
    Except DbError Decision :=
  match canViewPollR db targetId (some viewerUserId) none with
  | .error e => .error e
  | .ok canView =>
  match findPoll db targetId with
  | none => .error (.NotFoundError "Poll")
  | some poll =>
    let reason :=
      if canView then "OK"
      else if poll.visibility = .PRIVATE_LINK then "PRIVATE_LINK_REQUIRED"
      else if poll.visibility = .FRIENDS_ONLY then
        if (getMutualFollows db viewerUserId poll.ownerId).areMutuals then "OK"
        else "NOT_MUTUALS"
      else "BLOCKED"
    .ok ⟨canView, reason⟩

/-- Lookup a vote row by primary id (`prisma.vote.findUnique`). -/
def findVoteById (db : DB) (id : String) : Option Vote :=
  db.votes.find? (fun v => v.id == id)

/-- Lookup a slider-response row by primary id. -/
def findSliderById (db : DB) (id : String) : Option SliderResponse :=
  db.sliderResponses.find? (fun r => r.id == id)

/-- The response branch of `AdminService.simulateVisibility`: looks the id up
in both response tables (`vote || sliderResponse`, the vote taking priority),
checks the parent poll with no token, and computes
`allowed = canViewPoll && not (vote.isHidden || slider.isHidden)` with a
reason chain that skips the hidden reason for the response's own author. -/
def simulateResponse (db : DB) (viewerUserId targetId : String) :
    Except DbError Decision :=
  match findVoteById db targetId, findSliderById db targetId with
  | none, none => .error (.NotFoundError "Response")
  | some v, sliderFound =>
    (match canViewPollR db v.pollId (some viewerUserId) none with
     | .error e => .error e
     | .ok canViewParent =>
       let reason :=
         if !canViewParent then "CANNOT_VIEW_POLL"
         else if v.voterId ≠ viewerUserId && v.isHidden then "VOTE_HIDDEN"
         else if (match sliderFound with
                  | some r => decide (r.userId ≠ viewerUserId) && r.isHidden
                  | none => false) then "RESPONSE_HIDDEN"
         else "OK"
       let anyHidden := v.isHidden ||
         (match sliderFound with | some r => r.isHidden | none => false)
       .ok ⟨canViewParent && !anyHidden, reason⟩)
  | none, some r =>
    match canViewPollR db r.pollId (some viewerUserId) none with
    | .error e => .error e
    | .ok canViewParent =>
      let reason :=
        if !canViewParent then "CANNOT_VIEW_POLL"
        else if r.userId ≠ viewerUserId && r.isHidden then "RESPONSE_HIDDEN"
        else "OK"
      .ok ⟨canViewParent && !r.isHidden, reason⟩

/-- The profile branch of `AdminService.simulateVisibility`: privacy check
first (skipped for the owner), then a block check in both directions that
overwrites the outcome, so a block dominates the final (allowed, reason). -/
def simulateProfile (db : DB) (viewerUserId targetId : String) :
    Except DbError Decision :=
  match findUser db targetId with
  | none => .error (.NotFoundError "User")
  | some targetUser =>
    let privacy : Bool × String :=
      if targetUser.isPrivate && targetUser.id ≠ viewerUserId then
        if !(getMutualFollows db viewerUserId targetUser.id).areMutuals then
          (false, "PRIVATE_NOT_MUTUALS")
        else
          (true, "OK")
      else
        (true, "OK")
    let blocked := isBlocked db viewerUserId targetUser.id
    let blockedBy := isBlocked db targetUser.id viewerUserId
    if blocked || blockedBy then
      .ok ⟨false, "BLOCKED"⟩
    else
      .ok ⟨privacy.1, privacy.2⟩

/-- Embedding of `AdminService.simulateVisibility`: resolve the viewer (NotFound if the
id does not exist), then dispatch on the target type.  Every branch
re-encodes its rules locally; none calls a shared decision function. -/
def simulateVisibility (db : DB) (viewerUserId : String)
    (targetType : TargetType) (targetId : String) : Except DbError Decision :=
  match findUser db viewerUserId with
  | none => .error (.NotFoundError "User")
  | some _ =>
    match targetType with
    | .poll => simulatePoll db viewerUserId targetId
    | .response => simulateResponse db viewerUserId targetId
    | .profile => simulateProfile db viewerUserId targetId

/-- The profile-visibility decision of the enforcement path,
`UserService.getUserByHandle` in `src/services/user.service.ts`:
`canView = isOwner || not isPrivate || areMutuals`, with mutuals computed
only for an authenticated viewer.  Blocks are never consulted. -/
def getUserByHandleCanView (db : DB) (viewerId : Option String)
    (target : User) : Bool :=
  let areMutuals :=
    match viewerId with
    | some v => (getMutualFollows db v target.id).areMutuals
    | none => false
  let isOwner := viewerId = some target.id
  isOwner || !target.isPrivate || areMutuals

deriving instance DecidableEq for Except

/-- A generic `Except` success test. -/
def isOkE {α : Type} : Except DbError α → Bool
  | .ok _ => true
  | .error _ => false

/-- Two users: `u` (public) and `o` (public), a PUBLIC poll `p` owned by
`o`, and a hidden vote `v1` on `p` authored by `u`. -/
def voteHidden : Vote := ⟨"v1", "p", "u", "opt1", true, false, 0⟩

def dbHiddenVote : DB :=
  ⟨[⟨"u", false⟩, ⟨"o", false⟩],
   [⟨"p", "o", .PUBLIC, none, false, none, none, none⟩],
   [], [], [], [], [voteHidden], []⟩

/-- Users `a` (public) and `b` (private); no edges, no requests. -/
def dbPrivateFollowee : DB :=
  ⟨[⟨"a", false⟩, ⟨"b", true⟩], [], [], [], [], [], [], []⟩

/-- The store of `dbPrivateFollowee` after the code's `follow a b`. -/
def dbPrivateFolloweeAfter : DB :=
  { dbPrivateFollowee with follows := [("a", "b")] }

/-- A continuous PUBLIC poll `p` (range 0..10) owned by `o`, plus a
responder `u`; no responses yet. -/
def dbSlider : DB :=
  ⟨[⟨"o", false⟩, ⟨"u", false⟩],
   [⟨"p", "o", .PUBLIC, none, true, some 0, some 10, none⟩],
   [], [], [], [], [], []⟩

/-- Public users `u1` and `u2` where `u2` has blocked `u1`. -/
def dbBlockedPair : DB :=
  ⟨[⟨"u1", false⟩, ⟨"u2", false⟩], [], [], [], [("u2", "u1")], [], [], []⟩

/-- The store reached from empty by `block a b` then `follow a b`. -/
def dbBlockThenFollow : DB :=
  runOps DB.empty [.block "a" "b", .follow "a" "b"]

/-- A store holding just the Block edge (a, b). -/
def dbExistingBlock : DB :=
  ⟨[], [], [], [], [("a", "b")], [], [], []⟩

/-- A PRIVATE_LINK poll `p` with token `tok` owned by `o`, viewer `w`,
with blocks and mutes in both directions between `w` and `o`. -/
def dbPrivateLink : DB :=
  ⟨[⟨"w", false⟩, ⟨"o", false⟩],
   [⟨"p", "o", .PRIVATE_LINK, some "tok", false, none, none, none⟩],
   [], [], [("w", "o"), ("o", "w")], [("w", "o"), ("o", "w")], [], []⟩

/-- A PUBLIC poll `p` owned by `o`, viewer `w`, with blocks and mutes in
both directions between `w` and `o`. -/
def dbPublicHostile : DB :=
  ⟨[⟨"w", false⟩, ⟨"o", false⟩],
   [⟨"p", "o", .PUBLIC, none, false, none, none, none⟩],
   [], [], [("w", "o"), ("o", "w")], [("w", "o"), ("o", "w")], [], []⟩

/-- The PRIVATE_LINK poll of `dbPrivateLink`. -/
def pollPrivateLink : Poll := ⟨"p", "o", .PRIVATE_LINK, some "tok", false, none, none, none⟩

/-- The PUBLIC poll of `dbPublicHostile`. -/
def pollPublicHostile : Poll := ⟨"p", "o", .PUBLIC, none, false, none, none, none⟩

/-- A pure-rule context for a PRIVATE_LINK poll where the owner views the
poll and supplies the matching token. -/
def ctxPrivateLink : VisibilityContext :=
  ⟨some "o", "o", .PRIVATE_LINK, some "tok", some "tok", false⟩

/-- A pure-rule context for a PRIVATE_LINK poll where the owner views the
poll without a token. -/
def ctxOwnerNoToken : VisibilityContext :=
  ⟨some "o", "o", .PRIVATE_LINK, some "tok", none, false⟩

/-- A pure-rule context for a PUBLIC poll and an anonymous viewer. -/
def ctxPublicAnon : VisibilityContext :=
  ⟨none, "o", .PUBLIC, none, none, false⟩

/-- A store with mutual Follow edges between `a` and `b` and nothing else. -/
def dbMutualFollows : DB :=
  ⟨[], [], [("a", "b"), ("b", "a")], [], [], [], [], []⟩

/-- A store with Follow(a,b) and Block(a,b) both present. -/
def dbFollowAndBlock : DB :=
  ⟨[], [], [("a", "b")], [], [("a", "b")], [], [], []⟩

/-- The slider response stored by a first submission of 5 on `dbSlider`. -/
def sliderR1 : SliderResponse := ⟨"p:u", "p", "u", 5, false, false, 0⟩

/-- The slider response after resubmitting 7 over `sliderR1`. -/
def sliderR2 : SliderResponse := ⟨"p:u", "p", "u", 7, false, false, 1⟩

/-- State of `dbSlider` after the first submission. -/
def dbSlider1 : DB := { dbSlider with sliderResponses := [sliderR1] }

/-- State of `dbSlider` after the second submission. -/
def dbSlider2 : DB := { dbSlider with sliderResponses := [sliderR2] }

/-- A discrete PUBLIC poll `q` owned by `o` with voter `u`; no votes yet. -/
def dbDiscrete : DB :=
  ⟨[⟨"o", false⟩, ⟨"u", false⟩],
   [⟨"q", "o", .PUBLIC, none, false, none, none, none⟩],
   [], [], [], [], [], []⟩

/-- The vote created by `u` for option o1 on the empty poll. -/
def voteV1 : Vote := ⟨"q:u:o1", "q", "u", "o1", false, false, 0⟩

/-- The vote created by `u` for option o2 after `voteV1` exists. -/
def voteV2 : Vote := ⟨"q:u:o2", "q", "u", "o2", false, false, 1⟩

/-- State of `dbDiscrete` after the first vote. -/
def dbDiscrete1 : DB := { dbDiscrete with votes := [voteV1] }

/-! Helper lemmas shared by the claim theorems. -/

/-- The repository-level poll check agrees with the pure domain rule on the
context a caller would assemble for the resolved poll. -/
theorem canViewPollR_eq_domain (db : DB) (pollId : String)
    (viewerId tok : Option String) (poll : Poll)
    (hfind : findPoll db pollId = some poll) :
    canViewPollR db pollId viewerId tok =
      .ok (canViewPoll (mkPollContext db poll viewerId tok)) := by
  unfold canViewPollR canViewPoll mkPollContext
  rw [hfind]
  cases hv : poll.visibility
  case PUBLIC => simp [hv]
  case FRIENDS_ONLY =>
    rcases viewerId with _ | v
    · simp [hv, jsFalsy]
    · by_cases hve : v = "" <;> by_cases hov : poll.ownerId = v <;>
        simp [hv, jsFalsy, hve, hov]
  case PRIVATE_LINK =>
    rcases tok with _ | t
    · simp [hv, jsFalsy]
    · by_cases ht : poll.privateLinkToken = some t <;> by_cases hte : t = "" <;>
        simp [hv, jsFalsy, ht, hte]

/-- The simulator's poll branch on a PRIVATE_LINK poll: the repository check
never receives a token, so it denies, and the reason is the private-link one. -/
theorem simulatePoll_privateLink (db : DB) (viewerUserId pollId : String)
    (poll : Poll) (hfind : findPoll db pollId = some poll)
    (hvis : poll.visibility = .PRIVATE_LINK) :
    simulatePoll db viewerUserId pollId = .ok ⟨false, "PRIVATE_LINK_REQUIRED"⟩ := by
  unfold simulatePoll canViewPollR
  simp [hfind, hvis, jsFalsy]

/-- The simulator's poll branch on a PUBLIC poll always returns OK. -/
theorem simulatePoll_public (db : DB) (viewerUserId pollId : String)
    (poll : Poll) (hfind : findPoll db pollId = some poll)
    (hvis : poll.visibility = .PUBLIC) :
    simulatePoll db viewerUserId pollId = .ok ⟨true, "OK"⟩ := by
  unfold simulatePoll canViewPollR
  simp [hfind, hvis]

/-- The initial value is bounded by a left max-fold. -/
theorem init_le_foldl_max (l : List Nat) (init : Nat) :
    init ≤ l.foldl Nat.max init := by
  induction l generalizing init with
  | nil => exact Nat.le_refl init
  | cons y ys ih =>
    calc init ≤ Nat.max init y := Nat.le_max_left init y
      _ ≤ ys.foldl Nat.max (Nat.max init y) := ih (Nat.max init y)

/-- Every member of a Nat list is bounded by a left max-fold over it. -/
theorem mem_le_foldl_max (l : List Nat) (init x : Nat) (hx : x ∈ l) :
    x ≤ l.foldl Nat.max init := by
  induction l generalizing init with
  | nil => cases hx
  | cons y ys ih =>
    cases hx with
    | head =>
      have h1 : x ≤ Nat.max init x := Nat.le_max_right init x
      calc x ≤ Nat.max init x := h1
        _ ≤ ys.foldl Nat.max (Nat.max init x) := init_le_foldl_max ys (Nat.max init x)
    | tail _ hmem => exact ih (Nat.max init y) hmem

/-! Claim theorems. -/

/-- Claim C7: a PUBLIC poll's single-item visibility decision is allowed
with reason OK for every viewer — including the anonymous viewer and
viewers who block, are blocked by, mute or are muted by the owner: the pure
rule, the repository check (over any relationship state) and the admin
simulator all return that outcome. -/
theorem C7_public_poll_always_ok :
    (∀ context : VisibilityContext, context.pollVisibility = .PUBLIC →
      canViewPoll context = true) ∧
    (∀ (db : DB) (pollId : String) (viewerId tok : Option String) (poll : Poll),
      findPoll db pollId = some poll → poll.visibility = .PUBLIC →
      canViewPollR db pollId viewerId tok = .ok true) ∧
    (∀ (db : DB) (viewerUserId pollId : String) (u : User) (poll : Poll),
      findUser db viewerUserId = some u → findPoll db pollId = some poll →
      poll.visibility = .PUBLIC →
      simulateVisibility db viewerUserId .poll pollId = .ok ⟨true, "OK"⟩) := by
  refine ⟨?_, ?_, ?_⟩
  · intro ctx h
    simp [canViewPoll, h]
  · intro db pollId viewerId tok poll hfind hvis
    unfold canViewPollR
    rw [hfind]
    simp [hvis]
  · intro db viewerUserId pollId u poll hu hfind hvis
    simp only [simulateVisibility, hu]
    exact simulatePoll_public db viewerUserId pollId poll hfind hvis

/-- Witness for C7 at concrete inputs: an anonymous viewer on a PUBLIC poll
whose owner and viewer block and mute each other in both directions. -/
theorem C7_witness :
    canViewPoll ctxPublicAnon = true ∧
    canViewPollR dbPublicHostile "p" none none = .ok true ∧
    simulateVisibility dbPublicHostile "w" .poll "p" = .ok ⟨true, "OK"⟩ :=
  ⟨C7_public_poll_always_ok.1 ctxPublicAnon rfl,
   C7_public_poll_always_ok.2.1 dbPublicHostile "p" none none pollPublicHostile
     (by decide) rfl,
   C7_public_poll_always_ok.2.2 dbPublicHostile "w" "p" ⟨"w", false⟩
     pollPublicHostile (by decide) (by decide) rfl⟩

/-- Claim C9: `unfollow` on a missing edge is not an idempotent no-op — the
store delete raises the record-not-found fault, which the repository surfaces
as a NotFoundError, and the state is left unchanged. -/
theorem C9_unfollow_missing_edge (db : DB) (a b : String)
    (h : isFollowing db a b = false) :
    unfollow db a b = .error (.NotFoundError "Record") ∧
    applyOp db (.unfollow a b) = db := by
  have h' : db.follows.contains (a, b) = false := h
  have h2 : (a, b) ∉ db.follows := by simp at h'; exact h'
  constructor
  · simp [unfollow, prismaFollowDelete, h2, mapPrismaError]
  · simp [applyOp, unfollow, prismaFollowDelete, h2, mapPrismaError]

/-- Witness for C9: unfollowing on the empty store fails with NotFound and
changes nothing. -/
theorem C9_witness :
    unfollow DB.empty "a" "b" = .error (.NotFoundError "Record") ∧
    applyOp DB.empty (.unfollow "a" "b") = DB.empty :=
  C9_unfollow_missing_edge DB.empty "a" "b" (by decide)

/-- Claim C10: ownership grants no bypass of the private-link gate — the
pure rule denies any context whose provided token is falsy or differs from
the poll token, owner or not; and the admin simulator, which never forwards
a token, denies every PRIVATE_LINK poll for every simulated viewer, with
reason PRIVATE_LINK_REQUIRED. -/
theorem C10_owner_no_bypass :
    (∀ context : VisibilityContext, context.pollVisibility = .PRIVATE_LINK →
      jsFalsy context.providedToken = true ∨
        context.providedToken ≠ context.privateLinkToken →
      canViewPoll context = false) ∧
    (∀ context : VisibilityContext, context.pollVisibility = .PRIVATE_LINK →
      context.viewerId = some context.ownerId →
      jsFalsy context.providedToken = true ∨
        context.providedToken ≠ context.privateLinkToken →
      canViewPoll context = false) ∧
    (∀ (db : DB) (viewerUserId pollId : String) (u : User) (poll : Poll),
      findUser db viewerUserId = some u → findPoll db pollId = some poll →
      poll.visibility = .PRIVATE_LINK →
      simulateVisibility db viewerUserId .poll pollId =
        .ok ⟨false, "PRIVATE_LINK_REQUIRED"⟩) := by
  have hpure : ∀ context : VisibilityContext,
      context.pollVisibility = .PRIVATE_LINK →
      jsFalsy context.providedToken = true ∨
        context.providedToken ≠ context.privateLinkToken →
      canViewPoll context = false := by
    intro ctx h hd
    rcases hd with hd | hd
    · simp [canViewPoll, h, hd]
    · have hd' : ctx.privateLinkToken ≠ ctx.providedToken := fun he => hd he.symm
      simp [canViewPoll, h, hd']
  refine ⟨hpure, fun ctx h _ hd => hpure ctx h hd, ?_⟩
  intro db viewerUserId pollId u poll hu hfind hvis
  simp only [simulateVisibility, hu]
  exact simulatePoll_privateLink db viewerUserId pollId poll hfind hvis

/-- Witness for C10: the owner without a token is denied by the pure rule,
and the simulator denies the owner of a PRIVATE_LINK poll. -/
theorem C10_witness :
    canViewPoll ctxOwnerNoToken = false ∧
    simulateVisibility dbPrivateLink "o" .poll "p" =
      .ok ⟨false, "PRIVATE_LINK_REQUIRED"⟩ :=
  ⟨C10_owner_no_bypass.2.1 ctxOwnerNoToken rfl rfl (Or.inl rfl),
   C10_owner_no_bypass.2.2 dbPrivateLink "o" "p" ⟨"o", false⟩ pollPrivateLink
     (by decide) (by decide) rfl⟩

/-- Claim C6: for a PRIVATE_LINK poll with a (nonempty) generated token, the
pure rule allows exactly the contexts supplying that token, independently of
the relationship inputs; the repository check computes the same token-only
test, with the store's relationship tables never consulted (the result is a
function of the poll record and the token alone); and a simulated viewer,
carrying no token, is denied with reason PRIVATE_LINK_REQUIRED. -/
theorem C6_private_link_token_gate (ctx : VisibilityContext) (t : String)
    (hvis : ctx.pollVisibility = .PRIVATE_LINK)
    (htok : ctx.privateLinkToken = some t) (hne : t ≠ "") :
    (canViewPoll ctx = true ↔ ctx.providedToken = some t) ∧
    (∀ (m : Bool) (v : Option String),
      canViewPoll { ctx with areMutuals := m, viewerId := v } = canViewPoll ctx) ∧
    (∀ (db : DB) (pollId : String) (poll : Poll) (viewerId tok : Option String),
      findPoll db pollId = some poll → poll.visibility = .PRIVATE_LINK →
      canViewPollR db pollId viewerId tok =
        .ok (if jsFalsy tok || poll.privateLinkToken ≠ tok then false else true)) ∧
    (∀ (db : DB) (viewerUserId pollId : String) (u : User) (poll : Poll),
      findUser db viewerUserId = some u → findPoll db pollId = some poll →
      poll.visibility = .PRIVATE_LINK →
      simulateVisibility db viewerUserId .poll pollId =
        .ok ⟨false, "PRIVATE_LINK_REQUIRED"⟩) := by
  refine ⟨?_, ?_, ?_, ?_⟩
  · rcases hp : ctx.providedToken with _ | s
    · simp [canViewPoll, hvis, htok, hp, jsFalsy]
    · by_cases hs : s = t
      · subst hs
        simp [canViewPoll, hvis, htok, hp, jsFalsy, hne]
      · have hs' : ¬t = s := fun he => hs he.symm
        simp [canViewPoll, hvis, htok, hp, jsFalsy, hs, hs']
  · intro m v
    simp [canViewPoll, hvis]
  · intro db pollId poll viewerId tok hfind hv
    unfold canViewPollR
    rw [hfind]
    by_cases h1 : jsFalsy tok = true
    · simp [hv, h1]
    · by_cases h2 : poll.privateLinkToken = tok <;> simp [hv, h1, h2]
  · intro db viewerUserId pollId u poll hu hfind hv
    simp only [simulateVisibility, hu]
    exact simulatePoll_privateLink db viewerUserId pollId poll hfind hv

/-- Witness for C6 at a concrete PRIVATE_LINK context with token `tok`,
plus the repository and simulator conjuncts at the concrete store. -/
theorem C6_witness :
    (canViewPoll ctxPrivateLink = true ↔ ctxPrivateLink.providedToken = some "tok") ∧
    canViewPollR dbPrivateLink "p" (some "w") (some "bad") =
      .ok (if jsFalsy (some "bad") || pollPrivateLink.privateLinkToken ≠ some "bad"
           then false else true) ∧
    simulateVisibility dbPrivateLink "w" .poll "p" =
      .ok ⟨false, "PRIVATE_LINK_REQUIRED"⟩ :=
  ⟨(C6_private_link_token_gate ctxPrivateLink "tok" rfl rfl (by decide)).1,
   (C6_private_link_token_gate ctxPrivateLink "tok" rfl rfl (by decide)).2.2.1
     dbPrivateLink "p" pollPrivateLink (some "w") (some "bad") (by decide) rfl,
   (C6_private_link_token_gate ctxPrivateLink "tok" rfl rfl (by decide)).2.2.2
     dbPrivateLink "w" "p" ⟨"w", false⟩ pollPrivateLink (by decide) (by decide) rfl⟩

/-- Claim C1 counterexample: there is no shared decision function — the
simulator re-encodes the rules — and the paths disagree.  Concretely, for the
author of their own hidden vote on a PUBLIC poll, the enforcement-path
functions allow (poll viewable, `canViewResponse` lets the author through),
while the simulator computes `allowed = canViewPoll && !isHidden`, ignoring
authorship, and returns denied — with reason OK. -/
theorem C1_counterexample :
    canViewPollR dbHiddenVote "p" (some "u") none = .ok true ∧
    canViewResponse true voteHidden.voterId (some "u") voteHidden.isHidden = true ∧
    simulateVisibility dbHiddenVote "u" .response "v1" = .ok ⟨false, "OK"⟩ := by
  decide

/-- Claim C1 (amended): the poll branch does agree — the repository check
used by both enforcement and simulator coincides with the pure domain rule
on the assembled context, and the simulator's poll `allowed` bit equals that
shared value; the response and profile branches are independent re-encodings
and disagree (see the counterexample). -/
theorem C1_amended_poll_branch_agreement :
    (∀ (db : DB) (pollId : String) (viewerId tok : Option String) (poll : Poll),
      findPoll db pollId = some poll →
      canViewPollR db pollId viewerId tok =
        .ok (canViewPoll (mkPollContext db poll viewerId tok))) ∧
    (∀ (db : DB) (viewerUserId pollId : String) (u : User) (poll : Poll),
      findUser db viewerUserId = some u → findPoll db pollId = some poll →
      ∃ reason : String,
        simulateVisibility db viewerUserId .poll pollId =
          .ok ⟨canViewPoll (mkPollContext db poll (some viewerUserId) none), reason⟩) := by
  constructor
  · exact fun db pollId viewerId tok poll h =>
      canViewPollR_eq_domain db pollId viewerId tok poll h
  · intro db viewerUserId pollId u poll hu hfind
    simp only [simulateVisibility, hu, simulatePoll,
      canViewPollR_eq_domain db pollId (some viewerUserId) none poll hfind, hfind]
    exact ⟨_, rfl⟩

/-- Witness for the amended C1 at a concrete store and poll. -/
theorem C1_witness :
    canViewPollR dbPublicHostile "p" (some "w") none =
      .ok (canViewPoll (mkPollContext dbPublicHostile pollPublicHostile (some "w") none)) ∧
    (∃ reason : String,
      simulateVisibility dbPublicHostile "w" .poll "p" =
        .ok ⟨canViewPoll (mkPollContext dbPublicHostile pollPublicHostile (some "w") none),
             reason⟩) :=
  ⟨C1_amended_poll_branch_agreement.1 dbPublicHostile "p" (some "w") none
     pollPublicHostile (by decide),
   C1_amended_poll_branch_agreement.2 dbPublicHostile "w" "p" ⟨"w", false⟩
     pollPublicHostile (by decide) (by decide)⟩

/-- Claim C2, code evaluated at the failing input: for a private followee
`b`, the repository's `follow a b` creates a direct Follow edge and touches
no FollowRequest — it never reads `isPrivate` — where the claim (and the
repository's own follow-request documentation and schema) require a PENDING
FollowRequest and no Follow. -/
theorem C2_follow_private_creates_direct_follow :
    (findUser dbPrivateFollowee "b").map User.isPrivate = some true ∧
    follow dbPrivateFollowee "a" "b" = .ok dbPrivateFolloweeAfter ∧
    isFollowing dbPrivateFolloweeAfter "a" "b" = true ∧
    dbPrivateFolloweeAfter.followRequests = [] := by
  decide

/-- Claim C4 counterexample: with Block(u2,u1) in the store and u2's profile
public, the enforcement-path profile decisions (`canViewProfile` and the
`getUserByHandle` check) allow viewer u1, where the claim requires denial
with reason BLOCKED; only the admin simulator denies. -/
theorem C4_counterexample :
    isBlocked dbBlockedPair "u2" "u1" = true ∧
    canViewProfile (some "u1") "u2" false
      ((getMutualFollows dbBlockedPair "u1" "u2").areMutuals) = true ∧
    getUserByHandleCanView dbBlockedPair (some "u1") ⟨"u2", false⟩ = true ∧
    simulateVisibility dbBlockedPair "u1" .profile "u2" = .ok ⟨false, "BLOCKED"⟩ := by
  decide

/-- Claim C4 (amended): only the admin simulator's profile branch enforces
the block rule — a block in either direction yields denial with reason
BLOCKED there, dominating the privacy check in its outcome; the
enforcement-path profile decisions never consult blocks (their result is
invariant under any change to the Block table); the owner is always allowed
on every path. -/
theorem C4_amended_blocks_only_in_simulator :
    (∀ (db : DB) (viewerUserId targetId : String) (u target : User),
      findUser db viewerUserId = some u → findUser db targetId = some target →
      (isBlocked db viewerUserId target.id || isBlocked db target.id viewerUserId) = true →
      simulateVisibility db viewerUserId .profile targetId = .ok ⟨false, "BLOCKED"⟩) ∧
    (∀ (profileId : String) (isPrivate areMutuals : Bool),
      canViewProfile (some profileId) profileId isPrivate areMutuals = true) ∧
    (∀ (db : DB) (target : User),
      getUserByHandleCanView db (some target.id) target = true) ∧
    (∀ (db : DB) (viewerId : Option String) (target : User)
        (bl : List (String × String)),
      getUserByHandleCanView { db with blocks := bl } viewerId target =
        getUserByHandleCanView db viewerId target) := by
  refine ⟨?_, ?_, ?_, ?_⟩
  · intro db viewerUserId targetId u target hu ht hb
    simp only [simulateVisibility, hu, simulateProfile, ht]
    simp [hb]
  · intro profileId isPrivate areMutuals
    simp [canViewProfile]
  · intro db target
    simp [getUserByHandleCanView]
  · intro db viewerId target bl
    cases viewerId <;>
      simp [getUserByHandleCanView, getMutualFollows, isFollowing]

/-- Witness for the amended C4 at the concrete blocked pair. -/
theorem C4_witness :
    simulateVisibility dbBlockedPair "u1" .profile "u2" = .ok ⟨false, "BLOCKED"⟩ ∧
    canViewProfile (some "u2") "u2" true false = true ∧
    getUserByHandleCanView dbBlockedPair (some "u2") ⟨"u2", false⟩ = true ∧
    getUserByHandleCanView { dbBlockedPair with blocks := [] } (some "u1") ⟨"u2", false⟩ =
      getUserByHandleCanView dbBlockedPair (some "u1") ⟨"u2", false⟩ :=
  ⟨C4_amended_blocks_only_in_simulator.1 dbBlockedPair "u1" "u2" ⟨"u1", false⟩
     ⟨"u2", false⟩ (by decide) (by decide) (by decide),
   C4_amended_blocks_only_in_simulator.2.1 "u2" true false,
   C4_amended_blocks_only_in_simulator.2.2.1 dbBlockedPair ⟨"u2", false⟩,
   C4_amended_blocks_only_in_simulator.2.2.2 dbBlockedPair (some "u1") ⟨"u2", false⟩ []⟩

/-- Claim C5 counterexample: from the empty store, `block a b` then
`follow a b` both succeed, leaving Block(a,b) and Follow(a,b) coexisting —
the blocker may re-follow the user they block, because `follow` only checks
whether the followee has blocked the follower. -/
theorem C5_counterexample :
    isBlocked dbBlockThenFollow "a" "b" = true ∧
    isFollowing dbBlockThenFollow "a" "b" = true := by
  decide

/-- The best-effort unfollow side call erases exactly the targeted edge
(no-op when the edge is absent). -/
theorem bestEffortUnfollow_follows (db : DB) (x y : String) :
    (bestEffortUnfollow db x y).follows = db.follows.erase (x, y) := by
  unfold bestEffortUnfollow unfollow prismaFollowDelete
  by_cases h : (x, y) ∈ db.follows
  · simp [h]
  · simp [h, List.erase_of_not_mem h]

/-- The best-effort unfollow side call never touches the Block table. -/
theorem bestEffortUnfollow_blocks (db : DB) (x y : String) :
    (bestEffortUnfollow db x y).blocks = db.blocks := by
  unfold bestEffortUnfollow unfollow prismaFollowDelete
  by_cases h : (x, y) ∈ db.follows <;> simp [h]

/-- Claim C5 (amended): under the store's uniqueness constraint on Follow
edges, a successful `block a b` leaves no Follow edge between a and b in
either direction, and while Block(a,b) exists the blocked user b cannot
recreate Follow(b,a) — but the blocker a can recreate Follow(a,b) (see the
counterexample), so the no-follow-under-block invariant holds only at
block-creation time and against the blocked party. -/
theorem C5_amended_block_cascade (db : DB) (a b : String)
    (hnd : db.follows.Nodup) :
    (∀ db', block db a b = .ok db' →
      isFollowing db' a b = false ∧ isFollowing db' b a = false) ∧
    (isBlocked db a b = true → isOkE (follow db b a) = false) := by
  constructor
  · intro db' hok
    cases hval : validateUserIds a b with
    | error e => simp [block, hval] at hok
    | ok w =>
      have hfol :
          (bestEffortUnfollow (bestEffortUnfollow db a b) b a).follows =
            (db.follows.erase (a, b)).erase (b, a) := by
        rw [bestEffortUnfollow_follows, bestEffortUnfollow_follows]
      have hdb : db'.follows = (db.follows.erase (a, b)).erase (b, a) := by
        simp only [block, hval] at hok
        split at hok
        · cases hok
          exact hfol
        · cases hok
          simpa using hfol
      have h1 : (a, b) ∉ (db.follows.erase (a, b)).erase (b, a) := by
        intro hm
        exact hnd.not_mem_erase (List.mem_of_mem_erase hm)
      have h2 : (b, a) ∉ (db.follows.erase (a, b)).erase (b, a) :=
        (hnd.erase (a, b)).not_mem_erase
      constructor
      · unfold isFollowing
        rw [hdb]
        simpa using h1
      · unfold isFollowing
        rw [hdb]
        simpa using h2
  · intro hb
    cases hval : validateUserIds b a with
    | error e => simp [follow, hval, isOkE]
    | ok w =>
      by_cases hf : isFollowing db b a
      · simp [follow, hval, hf, isOkE]
      · simp [follow, hval, hf, hb, isOkE]

/-- Witness for the amended C5: blocking over mutual follows removes both
edges, and the blocked party cannot follow back while the block stands. -/
theorem C5_witness :
    (isFollowing dbExistingBlock "a" "b" = false ∧
     isFollowing dbExistingBlock "b" "a" = false) ∧
    isOkE (follow dbExistingBlock "b" "a") = false :=
  ⟨(C5_amended_block_cascade dbMutualFollows "a" "b" (by decide)).1
     dbExistingBlock (by decide),
   (C5_amended_block_cascade dbExistingBlock "a" "b" (by decide)).2 (by decide)⟩

/-- Claim C8 counterexample: with Block(a,b) already present, `block a b`
does not fail with a Conflict — the upsert succeeds (refreshing only the
timestamp), returning the store unchanged in this model. -/
theorem C8_counterexample :
    isBlocked dbExistingBlock "a" "b" = true ∧
    block dbExistingBlock "a" "b" = .ok dbExistingBlock := by
  decide

/-- Claim C8 (amended): duplicate `follow` fails with a ConflictError — a
failure kind distinct from ValidationError — and does not silently succeed;
duplicate `block`, by contrast, succeeds as an upsert that refreshes the
timestamp (see the counterexample). -/
theorem C8_amended_duplicate_edges (db : DB) (a b : String)
    (hne : a ≠ b) (ha : a ≠ "") (hb : b ≠ "") :
    (isFollowing db a b = true →
      follow db a b = .error (.ConflictError "Already following this user")) ∧
    (isBlocked db a b = true → isOkE (block db a b) = true) ∧
    (∀ m1 m2 : String, DbError.ConflictError m1 ≠ DbError.ValidationError m2) := by
  have hval : validateUserIds a b = .ok () := by
    simp [validateUserIds, ha, hb, hne]
  refine ⟨?_, ?_, ?_⟩
  · intro hf
    simp [follow, hval, hf]
  · intro _
    simp only [block, hval]
    split <;> simp [isOkE]
  · intro m1 m2 h
    cases h

/-- Witness for the amended C8 on a store with both duplicate edges. -/
theorem C8_witness :
    follow dbFollowAndBlock "a" "b" =
      .error (.ConflictError "Already following this user") ∧
    isOkE (block dbFollowAndBlock "a" "b") = true ∧
    DbError.ConflictError "x" ≠ DbError.ValidationError "y" :=
  ⟨(C8_amended_duplicate_edges dbFollowAndBlock "a" "b" (by decide) (by decide)
      (by decide)).1 (by decide),
   (C8_amended_duplicate_edges dbFollowAndBlock "a" "b" (by decide) (by decide)
      (by decide)).2.1 (by decide),
   (C8_amended_duplicate_edges dbFollowAndBlock "a" "b" (by decide) (by decide)
      (by decide)).2.2 "x" "y"⟩

/-- Claim C3: flip-flop counting.  A first slider submission stores count 0;
every later submission through the update path — same value included —
stores the previous count plus one (so the count never decreases and is
never reset); the concrete trace 5, 7, 7 yields counts 0, 1, 2; a first vote
stores count 0; and a new vote written while other votes exist on the poll
is strictly above every existing count (one above their maximum). -/
theorem C3_flipflop_counting :
    (∀ (db : DB) (now : Nat) (pollId userId : String) (value : Int)
        (r : SliderResponse) (db' : DB),
      getUserSliderResponse db pollId userId = none →
      submitSliderResponse db now pollId userId value = .ok (r, db') →
      r.flipFlopCount = 0) ∧
    (∀ (db : DB) (now : Nat) (pollId userId : String) (value : Int)
        (r0 r : SliderResponse) (db' : DB),
      getUserSliderResponse db pollId userId = some r0 →
      submitSliderResponse db now pollId userId value = .ok (r, db') →
      r.flipFlopCount = r0.flipFlopCount + 1) ∧
    ((submitMany 0 "p" "u" dbSlider [5, 7, 7]).1 = [some 0, some 1, some 2]) ∧
    (∀ (db : DB) (now : Nat) (pollId voterId optionId : String)
        (v : Vote) (db' : DB),
      findVoteByKey db pollId voterId optionId = none →
      getUserVoteForPoll db pollId voterId = [] →
      vote db now pollId voterId optionId = .ok (v, db') →
      v.flipFlopCount = 0) ∧
    (∀ (db : DB) (now : Nat) (pollId voterId optionId : String)
        (v : Vote) (db' : DB) (w : Vote),
      findVoteByKey db pollId voterId optionId = none →
      w ∈ getUserVoteForPoll db pollId voterId →
      vote db now pollId voterId optionId = .ok (v, db') →
      w.flipFlopCount < v.flipFlopCount) := by
  refine ⟨?_, ?_, by decide, ?_, ?_⟩
  · intro db now pollId userId value r db' h0 hsub
    rcases hfp : findPoll db pollId with _ | poll
    · simp [submitSliderResponse, hfp] at hsub
    · simp only [submitSliderResponse, hfp] at hsub
      split at hsub
      · cases hsub
      · split at hsub
        · cases hsub
        · cases hvv : validateSliderValue value poll.minValue poll.maxValue with
          | error e => simp only [hvv] at hsub; cases hsub
          | ok w =>
            simp only [hvv, h0, upsertSliderResponse] at hsub
            cases hsub
            rfl
  · intro db now pollId userId value r0 r db' h0 hsub
    rcases hfp : findPoll db pollId with _ | poll
    · simp [submitSliderResponse, hfp] at hsub
    · simp only [submitSliderResponse, hfp] at hsub
      split at hsub
      · cases hsub
      · split at hsub
        · cases hsub
        · cases hvv : validateSliderValue value poll.minValue poll.maxValue with
          | error e => simp only [hvv] at hsub; cases hsub
          | ok w =>
            simp only [hvv, h0, upsertSliderResponse] at hsub
            cases hsub
            rfl
  · intro db now pollId voterId optionId v db' hfk h0 hvote
    rcases hfp : findPoll db pollId with _ | poll
    · simp [vote, hfp] at hvote
    · simp only [vote, hfp] at hvote
      split at hvote
      · cases hvote
      · split at hvote
        · cases hvote
        · simp only [hfk, h0] at hvote
          cases hvote
          rfl
  · intro db now pollId voterId optionId v db' w hfk hw hvote
    rcases hfp : findPoll db pollId with _ | poll
    · simp [vote, hfp] at hvote
    · simp only [vote, hfp] at hvote
      split at hvote
      · cases hvote
      · split at hvote
        · cases hvote
        · simp only [hfk] at hvote
          have hlen : (getUserVoteForPoll db pollId voterId).length > 0 :=
            List.length_pos.mpr (List.ne_nil_of_mem hw)
          rw [if_pos hlen] at hvote
          cases hvote
          have hmem : w.flipFlopCount ∈
              (getUserVoteForPoll db pollId voterId).map (fun x => x.flipFlopCount) :=
            List.mem_map_of_mem (fun x => x.flipFlopCount) hw
          exact Nat.lt_succ_of_le
            (mem_le_foldl_max _ 0 w.flipFlopCount hmem)

/-- Witness for C3, discharging the hypotheses at concrete stores: a first
slider submission counts 0, an update counts one more, a first vote counts
0, and a second-option vote exceeds the first vote's count. -/
theorem C3_witness :
    sliderR1.flipFlopCount = 0 ∧
    sliderR2.flipFlopCount = sliderR1.flipFlopCount + 1 ∧
    voteV1.flipFlopCount = 0 ∧
    voteV1.flipFlopCount < voteV2.flipFlopCount :=
  ⟨C3_flipflop_counting.1 dbSlider 0 "p" "u" 5 sliderR1 dbSlider1
     (by decide) (by decide),
   C3_flipflop_counting.2.1 dbSlider1 0 "p" "u" 7 sliderR1 sliderR2 dbSlider2
     (by decide) (by decide),
   C3_flipflop_counting.2.2.2.1 dbDiscrete 0 "q" "u" "o1" voteV1 dbDiscrete1
     (by decide) (by decide) (by decide),
   C3_flipflop_counting.2.2.2.2 dbDiscrete1 0 "q" "u" "o2" voteV2
     { dbDiscrete with votes := [voteV1, voteV2] } voteV1
     (by decide) (by decide) (by decide)⟩

end Spill
